import Mathlib

/-!
# Trip service of the ride-sharing backend

A shallow embedding of `services/trip-service`: the value types of
`pkg/types/trip.go`, the fare calculator and the OSRM client of
`internal/infrastructure/osrm`, the Mongo trip repository, the event publisher
and the trip service of `internal/service/service.go`.

Modelling conventions.

* `float64` is the field `ℚ`: arithmetic is exact, there are no NaN, no
  infinities and no rounding error. The source rounds after every float64
  operation, so a number of the model is the number of the source up to those
  roundings. They decide the outcome only where a number is cut to an integer,
  in the conversion to cents: there the model and the source can differ by one
  cent when the exact product lies within rounding error of an integer.
* `time.Time` is an integer count of nanoseconds since Go's zero instant, so the
  zero value of `time.Time` is `0`.
* Everything the Go code obtains from its surroundings (the wall clock,
  `uuid.New`, the iteration order of a map, the answer of the routing provider,
  failures of the database driver or of the broker) is an explicit argument.
* A pointer that the code may leave `nil` is an `Option`.
-/

namespace RideSharing

/-! ## `pkg/types/trip.go` -/

/-- A Go `time.Time`, in nanoseconds since the zero instant. -/
abbrev Time := Int

/-- The Go constant `time.Minute`, in nanoseconds. -/
def Minute : Int := 60 * 1000000000

/-- The Go type `TripStatus`, a string. -/
abbrev TripStatus := String

def TripStatusPending : TripStatus := "pending"
def TripStatusCreated : TripStatus := "created"
def TripStatusDriverFound : TripStatus := "driver_found"
def TripStatusDriverAssigned : TripStatus := "driver_assigned"
def TripStatusInProgress : TripStatus := "in_progress"
def TripStatusCompleted : TripStatus := "completed"
def TripStatusCancelled : TripStatus := "cancelled"

/-- The Go type `CarPackageSlug`, a string. -/
abbrev CarPackageSlug := String

def CarPackageSedan : CarPackageSlug := "sedan"
def CarPackageSUV : CarPackageSlug := "suv"
def CarPackageVAN : CarPackageSlug := "van"
def CarPackageLuxury : CarPackageSlug := "luxury"

/-- A geographic coordinate. -/
structure Coordinate where
  Latitude : ℚ
  Longitude : ℚ
  deriving DecidableEq

/-- A geometry segment of a route. -/
structure Geometry where
  Coordinates : List Coordinate
  deriving DecidableEq

/-- Route information: distance in meters, duration in seconds. -/
structure Route where
  Distance : ℚ
  Duration : ℚ
  Geometry : List Geometry
  deriving DecidableEq

/-- Pricing information for a route. -/
structure RouteFare where
  ID : String
  PackageSlug : CarPackageSlug
  BasePrice : ℚ
  TotalPriceInCents : Int
  ExpiresAt : Time
  Route : Option Route
  deriving DecidableEq

/-- A driver assigned to a trip. -/
structure Driver where
  ID : String
  Name : String
  Location : Option Coordinate
  Geohash : String
  ProfilePicture : String
  CarPlate : String
  deriving DecidableEq

/-- A ride-sharing trip. -/
structure Trip where
  ID : String
  UserID : String
  Status : TripStatus
  Route : Option Route
  SelectedFare : Option RouteFare
  Driver : Option Driver
  CreatedAt : Time
  UpdatedAt : Time
  deriving DecidableEq

/-! ## Errors -/

/-- The errors of the trip service. A constructor with a `cause` is an error
built with `fmt.Errorf("...: %w", cause)`. -/
inductive Error where
  /-- `failed to create request` or `failed to make request` (OSRM client). -/
  | requestFailed
  /-- `OSRM API error: status %d, body: %s`. -/
  | osrmStatus (status : Nat) (body : String)
  /-- `failed to decode response` (OSRM client). -/
  | decodeFailed
  /-- `no route found: code %s`. -/
  | noRouteFound (code : String)
  /-- An error reported by the MongoDB driver other than a duplicate key. -/
  | driverFault
  /-- The duplicate-key write error of `InsertOne`. -/
  | duplicateKey
  /-- `failed to publish event` (broker refused the message). -/
  | failedToPublishEvent
  /-- `failed to get route: %w`. -/
  | failedToGetRoute (cause : Error)
  /-- `failed to calculate fares: %w`. -/
  | failedToCalculateFares (cause : Error)
  /-- `fare not found: %s`. -/
  | fareNotFound (fareID : String)
  /-- `fare has expired`. -/
  | fareExpired
  /-- `failed to create trip: %w`. -/
  | failedToCreateTrip (cause : Error)
  /-- `failed to get trip: %w`. -/
  | failedToGetTrip (cause : Error)
  /-- `trip not found: %s`. -/
  | tripNotFound (tripID : String)
  /-- `failed to update trip status: %w`. -/
  | failedToUpdateTripStatus (cause : Error)
  /-- `failed to get updated trip: %w`. -/
  | failedToGetUpdatedTrip (cause : Error)
  /-- `failed to publish driver assigned event: %w`. -/
  | failedToPublishDriverAssigned (cause : Error)
  deriving DecidableEq

/-! ## Go primitives -/

/-- The order in which one `for ... range` statement visits the entries of a Go
map. The language leaves the order unspecified; `choice` resolves it: at each
step the entry at position `c % remaining` of the entries not yet visited comes
next. Every `choice` yields a permutation of the entries, and every permutation
is reached by some `choice`. -/
def rangeOrder {α : Type} : List Nat → List α → List α
  | _, [] => []
  | [], x :: xs => x :: xs
  | c :: cs, x :: xs =>
    match (x :: xs)[c % (x :: xs).length]? with
    | some y => y :: rangeOrder cs ((x :: xs).eraseIdx (c % (x :: xs).length))
    | none => x :: xs

/-- The Go conversion `int64(x)` of a `float64`: the fraction is discarded
(truncation towards zero). When the truncated value does not fit in 64 bits the
language leaves the result to the implementation; the value used here is the
one of amd64, the least `int64`. -/
def int64OfFloat (x : ℚ) : Int :=
  let t : Int := if 0 ≤ x then ⌊x⌋ else ⌈x⌉
  if -2 ^ 63 ≤ t ∧ t < 2 ^ 63 then t else -2 ^ 63

/-! ## `internal/infrastructure/osrm/fare_calculator.go` -/

/-- Every field of a fare except the generated `ID`: package, base price, total
in cents, expiry and route. -/
def RouteFare.content (f : RouteFare) :
    CarPackageSlug × ℚ × Int × Time × Option RideSharing.Route :=
  (f.PackageSlug, f.BasePrice, f.TotalPriceInCents, f.ExpiresAt, f.Route)

/-- The fare calculator: the entries of its `basePrices` map. -/
structure FareCalculator where
  basePrices : List (CarPackageSlug × ℚ)

/-- The calculator built by `NewFareCalculator`: prices per kilometre. -/
def NewFareCalculator : FareCalculator :=
  { basePrices :=
      [(CarPackageSedan, 2.50), (CarPackageSUV, 3.00), (CarPackageVAN, 3.50),
        (CarPackageLuxury, 5.00)] }

/-- The body of the loop of `CalculateFares` for one map entry; `id` is the
string `uuid.New().String()` returned in this iteration. The product
`basePrice * 100` is exact here; the source converts the float64 product, which
is rounded first (for the 4 meter sedan fare it is `201 - 2^-45`, not 201). -/
def FareCalculator.makeFare (distanceKm : ℚ) (expiresAt : Time) (route : Route) (id : String)
    (entry : CarPackageSlug × ℚ) : RouteFare :=
  let basePrice := entry.2 * distanceKm
  let basePrice := basePrice + 2.0
  let totalPriceInCents := int64OfFloat (basePrice * 100)
  { ID := id
    PackageSlug := entry.1
    BasePrice := basePrice
    TotalPriceInCents := totalPriceInCents
    ExpiresAt := expiresAt
    Route := some route }

/-- The loop of `CalculateFares` over the entries in visiting order; `i` counts
the calls of `uuid.New` made so far and `uuid i` is the string of call `i`. -/
def FareCalculator.loop (distanceKm : ℚ) (expiresAt : Time) (route : Route) (uuid : Nat → String) :
    Nat → List (CarPackageSlug × ℚ) → List RouteFare
  | _, [] => []
  | i, entry :: rest =>
    FareCalculator.makeFare distanceKm expiresAt route (uuid i) entry ::
      FareCalculator.loop distanceKm expiresAt route uuid (i + 1) rest

/-- The method `CalculateFares`. `choice` fixes the iteration order of the map,
`now` is the reading of `time.Now()` and `uuid i` the string of the `i`-th call
of `uuid.New()`. -/
def FareCalculator.CalculateFares (fc : FareCalculator) (choice : List Nat) (now : Time)
    (uuid : Nat → String) (route : Route) : Except Error (List RouteFare) :=
  let distanceKm := route.Distance / 1000.0
  let expiresAt := now + 5 * Minute
  .ok (FareCalculator.loop distanceKm expiresAt route uuid 0 (rangeOrder choice fc.basePrices))

/-! ## `internal/infrastructure/osrm/client.go` -/

/-- The GeoJSON geometry of an OSRM answer; `Coordinates` holds `[lon, lat]`
entries. (`Kind` is the Go field `Type`.) -/
structure OSRMGeometry where
  Kind : String
  Coordinates : List (List ℚ)
  deriving DecidableEq

/-- A route of an OSRM answer. -/
structure OSRMRoute where
  Distance : ℚ
  Duration : ℚ
  Geometry : OSRMGeometry
  deriving DecidableEq

/-- The decoded body of an OSRM answer. -/
structure OSRMResponse where
  Code : String
  Routes : List OSRMRoute
  deriving DecidableEq

/-- What the HTTP exchange with the routing provider produced. -/
inductive ProviderAnswer where
  /-- Building or sending the request failed. -/
  | transportError
  /-- The provider answered with `status` and `body`; `decoded` is the result of
  decoding `body` as an `OSRMResponse`, `none` when the decoder fails. -/
  | answered (status : Nat) (body : String) (decoded : Option OSRMResponse)
  deriving DecidableEq

/-- The conversion loop of `GetRoute`: an entry with at least two numbers
`[lon, lat, ...]` becomes a coordinate, a shorter entry is skipped. -/
def OSRMClient.convertCoordinates (coords : List (List ℚ)) : List Coordinate :=
  coords.filterMap fun coord =>
    if h : 2 ≤ coord.length then
      some { Latitude := coord[1], Longitude := coord[0] }
    else none

/-- The method `GetRoute`; `provider pickup destination` is the outcome of the
HTTP request built from the two coordinates. The guard on the code and on the
number of routes comes first, as in the source; the empty case of the `match`
that reads `Routes[0]` is behind that guard. -/
def OSRMClient.GetRoute (provider : Coordinate → Coordinate → ProviderAnswer)
    (pickup destination : Coordinate) : Except Error Route :=
  match provider pickup destination with
  | .transportError => .error .requestFailed
  | .answered status body decoded =>
    if status ≠ 200 then .error (.osrmStatus status body)
    else
      match decoded with
      | none => .error .decodeFailed
      | some osrmResp =>
        if osrmResp.Code ≠ "Ok" ∨ osrmResp.Routes.length = 0 then
          .error (.noRouteFound osrmResp.Code)
        else
          match osrmResp.Routes with
          | [] => .error (.noRouteFound osrmResp.Code)
          | route :: _ =>
            .ok { Distance := route.Distance
                  Duration := route.Duration
                  Geometry :=
                    [{ Coordinates := OSRMClient.convertCoordinates route.Geometry.Coordinates }] }

/-! ## The surroundings of the service -/

/-- The data of a published event: a trip pointer, or the map `{trip_id}`. -/
inductive EventData where
  | trip (trip : Option Trip)
  | tripID (tripID : String)
  deriving DecidableEq

/-- A message accepted by the exchange `trip_exchange`. -/
structure Message where
  RoutingKey : String
  Data : EventData
  deriving DecidableEq

/-- A call of the service on its repository or on its event publisher, with the
arguments of the call. -/
inductive Call where
  | Create (trip : Trip)
  | GetByID (id : String)
  | UpdateStatus (id : String) (status : TripStatus)
  | PublishTripCreated (trip : Option Trip)
  | PublishDriverAssigned (trip : Option Trip)
  | PublishNoDriversFound (tripID : String)
  deriving DecidableEq

/-- A line written to the log of the process. -/
inductive LogLine where
  /-- `Published event: %s`. -/
  | publishedEvent (routingKey : String)
  /-- `Warning: failed to publish trip created event: %v`. -/
  | publishTripCreatedWarning (err : Error)
  /-- `Driver %s declined trip %s`. -/
  | driverDeclined (driverID tripID : String)
  deriving DecidableEq

/-- The state the service acts on: the documents of the collection `trips` in
insertion order, the messages accepted by the exchange, the log, and the record
of the calls made on the repository and on the publisher (oldest first). -/
structure World where
  trips : List Trip
  exchange : List Message
  logs : List LogLine
  calls : List Call
  deriving DecidableEq

/-- What the surroundings do during one operation of the service: the answer of
the routing provider, the iteration order of the price map, the successive
readings of `time.Now()`, the successive strings of `uuid.New()`, whether the
`i`-th request to the database fails in the driver, and whether the broker
refuses the publication. -/
structure Env where
  provider : Coordinate → Coordinate → ProviderAnswer
  rangeChoice : List Nat
  now : Nat → Time
  uuid : Nat → String
  storeFault : Nat → Bool
  publishFault : Bool

/-! ## `shared/contracts` -/

/-- Modelled from the spec: the routing key `contracts.TripEventCreated`, whose
declaration is not among the sources; the spec lists the topic
`trip.event.created`. -/
def TripEventCreated : String := "trip.event.created"

/-- Modelled from the spec: the routing key `contracts.TripEventDriverAssigned`,
whose declaration is not among the sources; the spec lists the topic
`trip.event.driver_assigned`. -/
def TripEventDriverAssigned : String := "trip.event.driver_assigned"

/-- Modelled from the spec: the routing key `contracts.TripEventNoDriversFound`,
whose declaration is not among the sources; the spec lists the topic
`trip.event.no_drivers_found`. -/
def TripEventNoDriversFound : String := "trip.event.no_drivers_found"

/-! ## `internal/infrastructure/repository/mongo.go` -/

/-- The effect of `UpdateOne` on the documents: the first document that matches
the filter is changed, the others are kept. -/
def updateOne (filter : Trip → Bool) (update : Trip → Trip) : List Trip → List Trip
  | [] => []
  | doc :: docs =>
    if filter doc then update doc :: docs else doc :: updateOne filter update docs

/-- The method `Create`: stamps the trip with `now` and inserts it. The result is
the returned error, the trip as the method leaves it behind its pointer, and the
new state. `InsertOne` fails when the driver fails and when a document with the
same `_id` exists; a failed insertion leaves the collection as it was. -/
def MongoTripRepository.Create (fault : Bool) (now : Time) (w : World) (trip : Trip) :
    Option Error × Trip × World :=
  let w := { w with calls := w.calls ++ [Call.Create trip] }
  let trip := { trip with CreatedAt := now, UpdatedAt := now }
  if fault then (some .driverFault, trip, w)
  else if w.trips.any (fun doc => doc.ID == trip.ID) then (some .duplicateKey, trip, w)
  else (none, trip, { w with trips := w.trips ++ [trip] })

/-- The method `GetByID`: the first document whose `_id` is `id`; no document is
`(nil, nil)`, a failure of the driver is an error. -/
def MongoTripRepository.GetByID (fault : Bool) (w : World) (id : String) :
    Except Error (Option Trip) × World :=
  let w := { w with calls := w.calls ++ [Call.GetByID id] }
  if fault then (.error .driverFault, w)
  else (.ok (w.trips.find? fun doc => doc.ID == id), w)

/-- The method `UpdateStatus`: sets `status` and `updated_at` of the document
whose `_id` is `id`; when no document matches nothing changes and no error is
returned. A failed update leaves the collection as it was. -/
def MongoTripRepository.UpdateStatus (fault : Bool) (now : Time) (w : World) (id : String)
    (status : TripStatus) : Option Error × World :=
  let w := { w with calls := w.calls ++ [Call.UpdateStatus id status] }
  if fault then (some .driverFault, w)
  else
    (none, { w with trips := updateOne (fun doc => doc.ID == id)
                      (fun doc => { doc with Status := status, UpdatedAt := now }) w.trips })

/-! ## `internal/infrastructure/events/publisher.go` -/

/-- The helper `publishEvent`: the data of this model always marshal; the
message joins the exchange unless the broker refuses it. -/
def EventPublisher.publishEvent (fault : Bool) (w : World) (routingKey : String)
    (data : EventData) : Option Error × World :=
  if fault then (some .failedToPublishEvent, w)
  else
    (none, { w with exchange := w.exchange ++ [{ RoutingKey := routingKey, Data := data }]
                    logs := w.logs ++ [LogLine.publishedEvent routingKey] })

/-- The method `PublishTripCreated`. -/
def EventPublisher.PublishTripCreated (fault : Bool) (w : World) (trip : Option Trip) :
    Option Error × World :=
  EventPublisher.publishEvent fault { w with calls := w.calls ++ [Call.PublishTripCreated trip] }
    TripEventCreated (.trip trip)

/-- The method `PublishDriverAssigned`. -/
def EventPublisher.PublishDriverAssigned (fault : Bool) (w : World) (trip : Option Trip) :
    Option Error × World :=
  EventPublisher.publishEvent fault
    { w with calls := w.calls ++ [Call.PublishDriverAssigned trip] }
    TripEventDriverAssigned (.trip trip)

/-- The method `PublishNoDriversFound`. -/
def EventPublisher.PublishNoDriversFound (fault : Bool) (w : World) (tripID : String) :
    Option Error × World :=
  EventPublisher.publishEvent fault
    { w with calls := w.calls ++ [Call.PublishNoDriversFound tripID] }
    TripEventNoDriversFound (.tripID tripID)

/-! ## `internal/service/service.go` -/

/-- The trip service. Its repository, routing client and publisher are the ones
above; the fare calculator is the only dependency that holds data. -/
structure TripServiceImpl where
  fareCalculator : FareCalculator

/-- The method `PreviewTrip`: the route of the provider, then its fares. The
fare calculator takes reading 0 of the clock and the ids from call 0 on. -/
def TripServiceImpl.PreviewTrip (s : TripServiceImpl) (env : Env) (_userID : String)
    (pickup destination : Coordinate) : Except Error (Route × List RouteFare) :=
  match OSRMClient.GetRoute env.provider pickup destination with
  | .error err => .error (.failedToGetRoute err)
  | .ok route =>
    match s.fareCalculator.CalculateFares env.rangeChoice (env.now 0) env.uuid route with
    | .error err => .error (.failedToCalculateFares err)
    | .ok fares => .ok (route, fares)

/-- The method `CreateTrip`. After the preview the clock is read a second time
for the expiry check and a third time inside `Create`; the id of the trip is the
next string of `uuid.New()` after those of the fares; the insertion is request 0
to the database. -/
def TripServiceImpl.CreateTrip (s : TripServiceImpl) (env : Env) (w : World) (userID : String)
    (fareID : String) (pickup destination : Coordinate) : Except Error Trip × World :=
  match s.PreviewTrip env userID pickup destination with
  | .error err => (.error err, w)
  | .ok (route, fares) =>
    match fares.find? fun fare => fare.ID == fareID with
    | none => (.error (.fareNotFound fareID), w)
    | some selectedFare =>
      if env.now 1 > selectedFare.ExpiresAt then (.error .fareExpired, w)
      else
        let trip : Trip :=
          { ID := env.uuid fares.length
            UserID := userID
            Status := TripStatusCreated
            Route := some route
            SelectedFare := some selectedFare
            Driver := none
            CreatedAt := 0
            UpdatedAt := 0 }
        match MongoTripRepository.Create (env.storeFault 0) (env.now 2) w trip with
        | (some err, _, w) => (.error (.failedToCreateTrip err), w)
        | (none, trip, w) =>
          match EventPublisher.PublishTripCreated env.publishFault w (some trip) with
          | (some err, w) =>
            (.ok trip, { w with logs := w.logs ++ [LogLine.publishTripCreatedWarning err] })
          | (none, w) => (.ok trip, w)

/-- The method `HandleDriverResponse`. The two lookups and the update are
requests 0, 2 and 1 to the database; the update takes reading 0 of the clock. -/
def TripServiceImpl.HandleDriverResponse (_s : TripServiceImpl) (env : Env) (w : World)
    (tripID : String) (driverID : String) (accepted : Bool) : Option Error × World :=
  match MongoTripRepository.GetByID (env.storeFault 0) w tripID with
  | (.error err, w) => (some (.failedToGetTrip err), w)
  | (.ok none, w) => (some (.tripNotFound tripID), w)
  | (.ok (some _), w) =>
    if accepted then
      match MongoTripRepository.UpdateStatus (env.storeFault 1) (env.now 0) w tripID
          TripStatusDriverAssigned with
      | (some err, w) => (some (.failedToUpdateTripStatus err), w)
      | (none, w) =>
        match MongoTripRepository.GetByID (env.storeFault 2) w tripID with
        | (.error err, w) => (some (.failedToGetUpdatedTrip err), w)
        | (.ok trip, w) =>
          match EventPublisher.PublishDriverAssigned env.publishFault w trip with
          | (some err, w) => (some (.failedToPublishDriverAssigned err), w)
          | (none, w) => (none, w)
    else (none, { w with logs := w.logs ++ [LogLine.driverDeclined driverID tripID] })

/-- The service built on the calculator of `NewFareCalculator`. -/
def NewTripService : TripServiceImpl := { fareCalculator := NewFareCalculator }

/-! ## Sample inputs -/

/-- An id generator that never repeats a value: call `n` returns `n` letters. -/
def sampleUUID (n : Nat) : String := String.mk (List.replicate n 'u')

/-- A route of 5000 meters and 600 seconds. -/
def sampleRoute : Route := { Distance := 5000, Duration := 600, Geometry := [] }

/-- A trip `t1` with the given status and nothing else set. -/
def sampleTrip (status : TripStatus) : Trip :=
  { ID := "t1", UserID := "u1", Status := status, Route := none, SelectedFare := none,
    Driver := none, CreatedAt := 1, UpdatedAt := 1 }

/-- A state whose collection holds the documents `trips` and nothing else. -/
def sampleWorld (trips : List Trip) : World :=
  { trips := trips, exchange := [], logs := [], calls := [] }

/-- A provider that answers every request with one route of 5000 meters. -/
def sampleProvider (_pickup _destination : Coordinate) : ProviderAnswer :=
  .answered 200 ""
    (some { Code := "Ok"
            Routes := [{ Distance := 5000, Duration := 600
                         Geometry := { Kind := "LineString", Coordinates := [] } }] })

/-- An answer of the provider with two routes; the geometry of the first holds
a `[lon, lat]` entry and a `[lon, lat, elevation]` entry. -/
def sampleResponse : OSRMResponse :=
  { Code := "Ok"
    Routes :=
      [{ Distance := 5000, Duration := 600
         Geometry := { Kind := "LineString"
                       Coordinates := [[-122.4194, 37.7749], [-122.4094, 37.7849, 12]] } },
       { Distance := 7000, Duration := 900
         Geometry := { Kind := "LineString", Coordinates := [] } }] }

/-- Surroundings without failure: the clock reads `clock i` at reading `i`. -/
def sampleEnv (clock : Nat → Time) (publishFault : Bool) : Env :=
  { provider := sampleProvider, rangeChoice := [], now := clock, uuid := sampleUUID,
    storeFault := fun _ => false, publishFault := publishFault }

/-! ## Lemmas on the Go primitives -/

theorem sampleUUID_injective : Function.Injective sampleUUID := by
  intro m n h
  have hl := congrArg (fun s : String => s.data.length) h
  simpa [sampleUUID] using hl

theorem perm_cons_eraseIdx {α : Type} :
    ∀ (l : List α) (n : Nat) (y : α), l[n]? = some y → (y :: l.eraseIdx n).Perm l
  | [], n, y, h => by simp at h
  | x :: xs, 0, y, h => by
    simp at h
    subst h
    simp
  | x :: xs, n + 1, y, h => by
    simp at h
    have ih := perm_cons_eraseIdx xs n y h
    simp only [List.eraseIdx_cons_succ]
    exact (List.Perm.swap x y _).trans (List.Perm.cons x ih)

theorem rangeOrder_perm {α : Type} : ∀ (choice : List Nat) (l : List α), (rangeOrder choice l).Perm l
  | [], [] => by simp [rangeOrder]
  | _ :: _, [] => by simp [rangeOrder]
  | [], x :: xs => by simp [rangeOrder]
  | c :: cs, x :: xs => by
    have hlt : c % (x :: xs).length < (x :: xs).length := Nat.mod_lt _ (by simp)
    obtain ⟨y, hy⟩ : ∃ y, (x :: xs)[c % (x :: xs).length]? = some y :=
      ⟨(x :: xs)[c % (x :: xs).length], List.getElem?_eq_getElem hlt⟩
    have hstep : rangeOrder (c :: cs) (x :: xs) =
        y :: rangeOrder cs ((x :: xs).eraseIdx (c % (x :: xs).length)) := by
      simp only [rangeOrder, hy]
    rw [hstep]
    exact (List.Perm.cons y (rangeOrder_perm cs _)).trans (perm_cons_eraseIdx _ _ _ hy)

/-- Every order of the entries is the visiting order of some `choice`. -/
theorem rangeOrder_complete {α : Type} :
    ∀ (l' l : List α), l'.Perm l → ∃ choice, rangeOrder choice l = l'
  | [], l, h => by
    have hl : l = [] := List.Perm.eq_nil h.symm
    subst hl
    exact ⟨[], by simp [rangeOrder]⟩
  | y :: ys, [], h => by simp at h
  | y :: ys, x :: xs, h => by
    have hy : y ∈ x :: xs := h.subset (List.mem_cons_self _ _)
    obtain ⟨i, hi, hget⟩ := List.getElem_of_mem hy
    have hsome : (x :: xs)[i]? = some y := by
      rw [List.getElem?_eq_getElem hi, hget]
    have hrest : ys.Perm ((x :: xs).eraseIdx i) :=
      List.Perm.cons_inv (h.trans (perm_cons_eraseIdx _ _ _ hsome).symm)
    obtain ⟨cs, hcs⟩ := rangeOrder_complete ys _ hrest
    refine ⟨i :: cs, ?_⟩
    have hmod : i % (x :: xs).length = i := Nat.mod_eq_of_lt hi
    simp only [rangeOrder, hmod, hsome, hcs]

/-! ## Lemmas on the routing client -/

/-- The conversion loop on entries `lon :: lat :: more` swaps the two numbers of
each entry and keeps the order of the entries. -/
theorem convertCoordinates_entries :
    ∀ (entries : List (ℚ × ℚ × List ℚ)),
      OSRMClient.convertCoordinates (entries.map fun e => e.1 :: e.2.1 :: e.2.2) =
        entries.map fun e => { Latitude := e.2.1, Longitude := e.1 }
  | [] => by simp [OSRMClient.convertCoordinates]
  | e :: rest => by
    have ih := convertCoordinates_entries rest
    simp only [OSRMClient.convertCoordinates] at ih ⊢
    simp [List.filterMap_cons, ih]

/-! ## Lemmas on the repository -/

theorem find?_updateOne (id : String) (update : Trip → Trip) (hid : ∀ doc, (update doc).ID = doc.ID) :
    ∀ (docs : List Trip) (t : Trip), docs.find? (fun doc => doc.ID == id) = some t →
      (updateOne (fun doc => doc.ID == id) update docs).find? (fun doc => doc.ID == id) =
        some (update t)
  | [], t, h => by simp at h
  | doc :: docs, t, h => by
    cases hd : (doc.ID == id)
    · simp only [List.find?_cons, hd] at h
      rw [updateOne, hd]
      simp only [Bool.false_eq_true, if_false, List.find?_cons, hd]
      exact find?_updateOne id update hid docs t h
    · simp only [List.find?_cons, hd, Option.some.injEq] at h
      subst h
      rw [updateOne, hd]
      simp only [if_true, List.find?_cons, hid, hd]

theorem mem_updateOne (filter : Trip → Bool) (update : Trip → Trip) :
    ∀ (docs : List Trip) (doc' : Trip), doc' ∈ updateOne filter update docs →
      doc' ∈ docs ∨ ∃ doc ∈ docs, doc' = update doc
  | [], doc', h => by simp [updateOne] at h
  | doc :: docs, doc', h => by
    by_cases hf : filter doc = true
    · rw [updateOne, if_pos hf, List.mem_cons] at h
      rcases h with h₁ | h₂
      · exact Or.inr ⟨doc, List.mem_cons_self _ _, h₁⟩
      · exact Or.inl (List.mem_cons_of_mem _ h₂)
    · rw [updateOne, if_neg hf, List.mem_cons] at h
      rcases h with h₁ | h₂
      · exact Or.inl (h₁ ▸ List.mem_cons_self _ _)
      · rcases mem_updateOne filter update docs doc' h₂ with h₃ | ⟨d, hd, he⟩
        · exact Or.inl (List.mem_cons_of_mem _ h₃)
        · exact Or.inr ⟨d, List.mem_cons_of_mem _ hd, he⟩

/-! ## Lemmas on the service -/

/-- The state after an accepted driver response on an existing trip, while the
first lookup and the update reach the database. -/
theorem handleDriverResponse_accept_trips (s : TripServiceImpl) (env : Env) (w : World)
    (tripID driverID : String) (t : Trip)
    (hfind : w.trips.find? (fun doc => doc.ID == tripID) = some t)
    (h0 : env.storeFault 0 = false) (h1 : env.storeFault 1 = false) :
    (s.HandleDriverResponse env w tripID driverID true).2.trips =
      updateOne (fun doc => doc.ID == tripID)
        (fun doc => { doc with Status := TripStatusDriverAssigned, UpdatedAt := env.now 0 })
        w.trips := by
  simp only [TripServiceImpl.HandleDriverResponse, MongoTripRepository.GetByID, h0, hfind,
    MongoTripRepository.UpdateStatus, h1, EventPublisher.PublishDriverAssigned,
    EventPublisher.publishEvent]
  cases env.storeFault 2 <;> cases env.publishFault <;> simp

/-- The documents after any driver response: each is a document from before, or
one from before with status `driver_assigned` and a new `updated_at`. -/
theorem handleDriverResponse_trips (s : TripServiceImpl) (env : Env) (w : World)
    (tripID driverID : String) (accepted : Bool) :
    (s.HandleDriverResponse env w tripID driverID accepted).2.trips = w.trips ∨
      (s.HandleDriverResponse env w tripID driverID accepted).2.trips =
        updateOne (fun doc => doc.ID == tripID)
          (fun doc => { doc with Status := TripStatusDriverAssigned, UpdatedAt := env.now 0 })
          w.trips := by
  simp only [TripServiceImpl.HandleDriverResponse, MongoTripRepository.GetByID,
    MongoTripRepository.UpdateStatus, EventPublisher.PublishDriverAssigned,
    EventPublisher.publishEvent]
  cases env.storeFault 0 <;> cases env.storeFault 1 <;> cases env.storeFault 2 <;>
    cases env.publishFault <;> cases accepted <;>
    cases w.trips.find? (fun doc => doc.ID == tripID) <;> simp

/-- The result of `CreateTrip` when the preview succeeds, the fare is found and
not expired, and the insertion succeeds. -/
theorem createTrip_success (s : TripServiceImpl) (env : Env) (w : World)
    (userID fareID : String) (pickup destination : Coordinate) (route : Route)
    (fares : List RouteFare) (fare : RouteFare)
    (hprev : s.PreviewTrip env userID pickup destination = .ok (route, fares))
    (hfind : fares.find? (fun f => f.ID == fareID) = some fare)
    (hfresh : ¬ env.now 1 > fare.ExpiresAt)
    (hfault : env.storeFault 0 = false)
    (hnew : ∀ doc ∈ w.trips, doc.ID ≠ env.uuid fares.length) :
    s.CreateTrip env w userID fareID pickup destination =
      (.ok { ID := env.uuid fares.length, UserID := userID, Status := TripStatusCreated,
             Route := some route, SelectedFare := some fare, Driver := none,
             CreatedAt := env.now 2, UpdatedAt := env.now 2 },
        { trips := w.trips ++
            [{ ID := env.uuid fares.length, UserID := userID, Status := TripStatusCreated,
               Route := some route, SelectedFare := some fare, Driver := none,
               CreatedAt := env.now 2, UpdatedAt := env.now 2 }]
          exchange :=
            if env.publishFault then w.exchange
            else w.exchange ++
              [{ RoutingKey := TripEventCreated
                 Data := .trip (some
                   { ID := env.uuid fares.length, UserID := userID, Status := TripStatusCreated,
                     Route := some route, SelectedFare := some fare, Driver := none,
                     CreatedAt := env.now 2, UpdatedAt := env.now 2 }) }]
          logs :=
            if env.publishFault then
              w.logs ++ [LogLine.publishTripCreatedWarning .failedToPublishEvent]
            else w.logs ++ [LogLine.publishedEvent TripEventCreated]
          calls := w.calls ++
            [Call.Create
              { ID := env.uuid fares.length, UserID := userID, Status := TripStatusCreated,
                Route := some route, SelectedFare := some fare, Driver := none,
                CreatedAt := 0, UpdatedAt := 0 },
             Call.PublishTripCreated (some
              { ID := env.uuid fares.length, UserID := userID, Status := TripStatusCreated,
                Route := some route, SelectedFare := some fare, Driver := none,
                CreatedAt := env.now 2, UpdatedAt := env.now 2 })] }) := by
  have hany : (w.trips.any fun doc => doc.ID == env.uuid fares.length) = false := by
    rw [List.any_eq_false]
    intro doc hdoc
    simpa using hnew doc hdoc
  simp only [TripServiceImpl.CreateTrip, hprev, hfind, if_neg hfresh, MongoTripRepository.Create,
    hfault, hany, EventPublisher.PublishTripCreated, EventPublisher.publishEvent]
  cases env.publishFault <;> simp

/-- The preview of the sample surroundings: the route of the provider and the
four fares in the order of the price table. -/
theorem samplePreview (clock : Nat → Time) (publishFault : Bool) (userID : String)
    (pickup destination : Coordinate) :
    NewTripService.PreviewTrip (sampleEnv clock publishFault) userID pickup destination =
      .ok ({ Distance := 5000, Duration := 600, Geometry := [{ Coordinates := [] }] },
        FareCalculator.loop (5000 / 1000.0) (clock 0 + 5 * Minute)
          { Distance := 5000, Duration := 600, Geometry := [{ Coordinates := [] }] } sampleUUID 0
          NewFareCalculator.basePrices) := by
  simp [TripServiceImpl.PreviewTrip, OSRMClient.GetRoute, sampleEnv, sampleProvider,
    OSRMClient.convertCoordinates, NewTripService, FareCalculator.CalculateFares, rangeOrder,
    NewFareCalculator]

/-! ## Lemmas on the fare calculator -/

theorem loop_map_content (distanceKm : ℚ) (expiresAt : Time) (route : Route) (uuid : Nat → String) :
    ∀ (i : Nat) (entries : List (CarPackageSlug × ℚ)),
      (FareCalculator.loop distanceKm expiresAt route uuid i entries).map RouteFare.content =
        entries.map fun entry =>
          (FareCalculator.makeFare distanceKm expiresAt route "" entry).content
  | _, [] => by simp [FareCalculator.loop]
  | i, entry :: rest => by
    simp [FareCalculator.loop, loop_map_content distanceKm expiresAt route uuid (i + 1) rest,
      FareCalculator.makeFare, RouteFare.content]

theorem loop_map_ID (distanceKm : ℚ) (expiresAt : Time) (route : Route) (uuid : Nat → String) :
    ∀ (i : Nat) (entries : List (CarPackageSlug × ℚ)),
      (FareCalculator.loop distanceKm expiresAt route uuid i entries).map RouteFare.ID =
        (List.range' i entries.length).map uuid
  | _, [] => by simp [FareCalculator.loop]
  | i, entry :: rest => by
    simp [FareCalculator.loop, loop_map_ID distanceKm expiresAt route uuid (i + 1) rest,
      FareCalculator.makeFare, List.range'_succ]

theorem content_of_mem_loop {distanceKm : ℚ} {expiresAt : Time} {route : Route}
    {uuid : Nat → String} {i : Nat} {entries : List (CarPackageSlug × ℚ)} {f : RouteFare}
    (hf : f ∈ FareCalculator.loop distanceKm expiresAt route uuid i entries) :
    ∃ entry ∈ entries,
      f.content = (FareCalculator.makeFare distanceKm expiresAt route "" entry).content := by
  have h : f.content ∈
      (FareCalculator.loop distanceKm expiresAt route uuid i entries).map RouteFare.content :=
    List.mem_map_of_mem _ hf
  rw [loop_map_content] at h
  obtain ⟨entry, hmem, heq⟩ := List.mem_map.1 h
  exact ⟨entry, hmem, heq.symm⟩

theorem mem_loop_of_mem (distanceKm : ℚ) (expiresAt : Time) (route : Route)
    (uuid : Nat → String) (i : Nat) {entries : List (CarPackageSlug × ℚ)}
    {entry : CarPackageSlug × ℚ} (he : entry ∈ entries) :
    ∃ f ∈ FareCalculator.loop distanceKm expiresAt route uuid i entries,
      f.content = (FareCalculator.makeFare distanceKm expiresAt route "" entry).content := by
  have h : (FareCalculator.makeFare distanceKm expiresAt route "" entry).content ∈
      (FareCalculator.loop distanceKm expiresAt route uuid i entries).map RouteFare.content := by
    rw [loop_map_content]
    exact List.mem_map_of_mem _ he
  obtain ⟨f, hf, heq⟩ := List.mem_map.1 h
  exact ⟨f, hf, heq⟩

theorem mem_basePrices (choice : List Nat) {entry : CarPackageSlug × ℚ} :
    entry ∈ rangeOrder choice NewFareCalculator.basePrices ↔
      entry = (CarPackageSedan, 2.50) ∨ entry = (CarPackageSUV, 3.00) ∨
        entry = (CarPackageVAN, 3.50) ∨ entry = (CarPackageLuxury, 5.00) := by
  rw [(rangeOrder_perm choice _).mem_iff]
  simp [NewFareCalculator]

/-! ## The sample preview -/

/-- The fare of id `u` among the fares of the sample preview is the second one,
the suv fare. -/
theorem sampleFind (distanceKm : ℚ) (expiresAt : Time) (route : Route) :
    (FareCalculator.loop distanceKm expiresAt route sampleUUID 0
        NewFareCalculator.basePrices).find? (fun f => f.ID == "u") =
      some (FareCalculator.makeFare distanceKm expiresAt route "u" (CarPackageSUV, 3.00)) := by
  have h0 : sampleUUID 0 = "" := rfl
  have h1 : sampleUUID 1 = "u" := rfl
  simp only [NewFareCalculator, FareCalculator.loop, List.find?_cons, FareCalculator.makeFare,
    h0, h1, Nat.zero_add]
  rfl

/-- No fare of the sample preview has the id `nope`. -/
theorem sampleNoFare (distanceKm : ℚ) (expiresAt : Time) (route : Route) :
    ∀ f ∈ FareCalculator.loop distanceKm expiresAt route sampleUUID 0
        NewFareCalculator.basePrices, f.ID ≠ "nope" := by
  intro f hf
  have h := List.mem_map_of_mem RouteFare.ID hf
  rw [loop_map_ID] at h
  have hids : (List.range' 0 NewFareCalculator.basePrices.length).map sampleUUID =
      ["", "u", "uu", "uuu"] := rfl
  rw [hids] at h
  intro heq
  rw [heq] at h
  revert h
  decide

/-! ## Claims on the fare calculator -/

/-- C1: for every route of distance `d` meters, `CalculateFares` returns without
error, and its result holds a sedan fare, an suv fare, a van fare and a luxury
fare whose `BasePrice` is `2.50*(d/1000) + 2.00`, `3.00*(d/1000) + 2.00`,
`3.50*(d/1000) + 2.00` and `5.00*(d/1000) + 2.00` in exact arithmetic; every fare
of the result has the price of its package. -/
theorem calculateFares_basePrice (choice : List Nat) (now : Time) (uuid : Nat → String)
    (route : Route) :
    ∃ fares, NewFareCalculator.CalculateFares choice now uuid route = .ok fares ∧
      (∃ f ∈ fares, f.PackageSlug = CarPackageSedan ∧
        f.BasePrice = 2.50 * (route.Distance / 1000) + 2.00) ∧
      (∃ f ∈ fares, f.PackageSlug = CarPackageSUV ∧
        f.BasePrice = 3.00 * (route.Distance / 1000) + 2.00) ∧
      (∃ f ∈ fares, f.PackageSlug = CarPackageVAN ∧
        f.BasePrice = 3.50 * (route.Distance / 1000) + 2.00) ∧
      (∃ f ∈ fares, f.PackageSlug = CarPackageLuxury ∧
        f.BasePrice = 5.00 * (route.Distance / 1000) + 2.00) ∧
      ∀ f ∈ fares,
        (f.PackageSlug = CarPackageSedan → f.BasePrice = 2.50 * (route.Distance / 1000) + 2.00) ∧
        (f.PackageSlug = CarPackageSUV → f.BasePrice = 3.00 * (route.Distance / 1000) + 2.00) ∧
        (f.PackageSlug = CarPackageVAN → f.BasePrice = 3.50 * (route.Distance / 1000) + 2.00) ∧
        (f.PackageSlug = CarPackageLuxury →
          f.BasePrice = 5.00 * (route.Distance / 1000) + 2.00) := by
  refine ⟨_, rfl, ?_, ?_, ?_, ?_, ?_⟩
  · obtain ⟨f, hf, hc⟩ := mem_loop_of_mem (route.Distance / 1000.0) (now + 5 * Minute)
      route uuid 0 ((mem_basePrices choice).2 (Or.inl rfl))
    simp only [RouteFare.content, FareCalculator.makeFare, Prod.mk.injEq] at hc
    exact ⟨f, hf, hc.1, by rw [hc.2.1]; norm_num⟩
  · obtain ⟨f, hf, hc⟩ := mem_loop_of_mem (route.Distance / 1000.0) (now + 5 * Minute)
      route uuid 0 ((mem_basePrices choice).2 (Or.inr (Or.inl rfl)))
    simp only [RouteFare.content, FareCalculator.makeFare, Prod.mk.injEq] at hc
    exact ⟨f, hf, hc.1, by rw [hc.2.1]; norm_num⟩
  · obtain ⟨f, hf, hc⟩ := mem_loop_of_mem (route.Distance / 1000.0) (now + 5 * Minute)
      route uuid 0 ((mem_basePrices choice).2 (Or.inr (Or.inr (Or.inl rfl))))
    simp only [RouteFare.content, FareCalculator.makeFare, Prod.mk.injEq] at hc
    exact ⟨f, hf, hc.1, by rw [hc.2.1]; norm_num⟩
  · obtain ⟨f, hf, hc⟩ := mem_loop_of_mem (route.Distance / 1000.0) (now + 5 * Minute)
      route uuid 0 ((mem_basePrices choice).2 (Or.inr (Or.inr (Or.inr rfl))))
    simp only [RouteFare.content, FareCalculator.makeFare, Prod.mk.injEq] at hc
    exact ⟨f, hf, hc.1, by rw [hc.2.1]; norm_num⟩
  · intro f hf
    obtain ⟨entry, he, hc⟩ := content_of_mem_loop hf
    simp only [RouteFare.content, FareCalculator.makeFare, Prod.mk.injEq] at hc
    rw [hc.1, hc.2.1]
    rcases (mem_basePrices choice).1 he with h | h | h | h <;> subst h <;>
      simp [CarPackageSedan, CarPackageSUV, CarPackageVAN, CarPackageLuxury] <;> norm_num

/-- C2, at the failing input: for the route of 3 meters the sedan fare has
`BasePrice * 100 = 200.75`, and `CalculateFares` returns it with
`TotalPriceInCents = 200` where the nearest integer is 201: the conversion to
cents discards the fraction instead of rounding. The same conversion applied to
`201 - 2^-45`, which is the float64 product `200.99999999999997` that the source
forms for the 4 meter sedan fare (base price 2.01), gives 200 where the nearest
integer is 201. -/
theorem calculateFares_total_truncates :
    ∃ fares, NewFareCalculator.CalculateFares [] 0 sampleUUID ⟨3, 0, []⟩ = .ok fares ∧
      (∃ f ∈ fares, f.PackageSlug = CarPackageSedan ∧ f.BasePrice * 100 = 803 / 4 ∧
        f.TotalPriceInCents = 200 ∧ round (f.BasePrice * 100) = 201) ∧
      int64OfFloat (201 - 1 / 2 ^ 45) = 200 ∧ round ((201 : ℚ) - 1 / 2 ^ 45) = 201 := by
  have hprice : ((2.50 : ℚ) * (3 / 1000.0) + 2.0) * 100 = 803 / 4 := by norm_num
  have hfloor : ⌊(803 / 4 : ℚ)⌋ = 200 := by
    rw [Int.floor_eq_iff]; norm_num
  have hround : round (803 / 4 : ℚ) = 201 := by
    rw [round_eq, Int.floor_eq_iff]; norm_num
  have hfloor' : ⌊((201 : ℚ) - 1 / 2 ^ 45)⌋ = 200 := by
    rw [Int.floor_eq_iff]; norm_num
  have hround' : round ((201 : ℚ) - 1 / 2 ^ 45) = 201 := by
    rw [round_eq, Int.floor_eq_iff]; norm_num
  have hpos : (0 : ℚ) ≤ 201 - 1 / 2 ^ 45 := by norm_num
  refine ⟨_, rfl, ⟨FareCalculator.makeFare (3 / 1000.0) (0 + 5 * Minute) ⟨3, 0, []⟩
    (sampleUUID 0) (CarPackageSedan, 2.50), ?_, rfl, ?_, ?_, ?_⟩, ?_, hround'⟩
  · simp [rangeOrder, NewFareCalculator, FareCalculator.loop]
  · simp only [FareCalculator.makeFare, hprice]
  · simp only [FareCalculator.makeFare, hprice, int64OfFloat, hfloor]
    norm_num
  · simp only [FareCalculator.makeFare, hprice, hround]
  · simp only [int64OfFloat, if_pos hpos, hfloor']
    norm_num

/-- C3: for every route, one call of `CalculateFares` returns exactly four fares,
one for each of the packages sedan, suv, van and luxury; when the id generator
never repeats a value the ids of the fares are pairwise distinct; and all fares
carry the same `ExpiresAt`, the clock reading plus five minutes. -/
theorem calculateFares_one_per_package (choice : List Nat) (now : Time) (uuid : Nat → String)
    (route : Route) (huuid : Function.Injective uuid) :
    ∃ fares, NewFareCalculator.CalculateFares choice now uuid route = .ok fares ∧
      fares.length = 4 ∧
      (fares.map RouteFare.PackageSlug).Perm
        [CarPackageSedan, CarPackageSUV, CarPackageVAN, CarPackageLuxury] ∧
      (fares.map RouteFare.ID).Nodup ∧
      ∀ f ∈ fares, f.ExpiresAt = now + 5 * Minute := by
  have hslug : (FareCalculator.loop (route.Distance / 1000.0) (now + 5 * Minute) route uuid 0
      (rangeOrder choice NewFareCalculator.basePrices)).map RouteFare.PackageSlug =
      (rangeOrder choice NewFareCalculator.basePrices).map Prod.fst := by
    have h := congrArg (List.map Prod.fst) (loop_map_content (route.Distance / 1000.0)
      (now + 5 * Minute) route uuid 0 (rangeOrder choice NewFareCalculator.basePrices))
    simpa [List.map_map, Function.comp_def, RouteFare.content, FareCalculator.makeFare] using h
  have hperm : ((rangeOrder choice NewFareCalculator.basePrices).map Prod.fst).Perm
      [CarPackageSedan, CarPackageSUV, CarPackageVAN, CarPackageLuxury] :=
    (rangeOrder_perm choice NewFareCalculator.basePrices).map Prod.fst
  refine ⟨_, rfl, ?_, ?_, ?_, ?_⟩
  · have h := hperm.length_eq
    rw [← hslug] at h
    simpa using h
  · rw [hslug]
    exact hperm
  · rw [loop_map_ID]
    exact (List.nodup_range' _ _).map huuid
  · intro f hf
    obtain ⟨entry, _, hc⟩ := content_of_mem_loop hf
    simp only [RouteFare.content, FareCalculator.makeFare, Prod.mk.injEq] at hc
    exact hc.2.2.2.1

/-- C3 at the route of 5000 meters, with the generator `sampleUUID`. -/
theorem calculateFares_one_per_package_witness :
    Function.Injective sampleUUID ∧
      ∃ fares, NewFareCalculator.CalculateFares [2, 0] 7 sampleUUID sampleRoute = .ok fares ∧
        fares.length = 4 ∧
        (fares.map RouteFare.PackageSlug).Perm
          [CarPackageSedan, CarPackageSUV, CarPackageVAN, CarPackageLuxury] ∧
        (fares.map RouteFare.ID).Nodup ∧
        ∀ f ∈ fares, f.ExpiresAt = 7 + 5 * Minute :=
  ⟨sampleUUID_injective,
    calculateFares_one_per_package [2, 0] 7 sampleUUID sampleRoute sampleUUID_injective⟩

/-- C4, refuted as stated: of two calls on the same route at the same clock
reading, one visits the map in the order sedan, suv, van, luxury and the other
in the order suv, van, luxury, sedan; they return `sedan` and `suv` at
position 0. -/
theorem calculateFares_order_not_fixed :
    ¬ ∀ (choice₁ choice₂ : List Nat) (now : Time) (uuid₁ uuid₂ : Nat → String) (route : Route),
      ∃ fares₁ fares₂,
        NewFareCalculator.CalculateFares choice₁ now uuid₁ route = .ok fares₁ ∧
        NewFareCalculator.CalculateFares choice₂ now uuid₂ route = .ok fares₂ ∧
        fares₁.map RouteFare.content = fares₂.map RouteFare.content := by
  intro h
  obtain ⟨fares₁, fares₂, h₁, h₂, heq⟩ := h [] [1, 1, 1] 0 sampleUUID sampleUUID sampleRoute
  simp only [FareCalculator.CalculateFares, Except.ok.injEq] at h₁ h₂
  subst h₁ h₂
  rw [loop_map_content, loop_map_content] at heq
  have hhead := congrArg (fun l => (l.map Prod.fst).head?) heq
  simp [rangeOrder, NewFareCalculator, RouteFare.content, FareCalculator.makeFare,
    CarPackageSedan, CarPackageSUV] at hhead

/-- C4, amended: for every route and every clock reading, two calls of
`CalculateFares` return the same fares up to the generated ids and up to the
order of the list (the lists of fare contents are permutations of each other);
two calls whose map iteration takes the same order agree position by position
on `PackageSlug`, `BasePrice`, `TotalPriceInCents`, `ExpiresAt` and `Route`. -/
theorem calculateFares_deterministic_up_to_order (choice₁ choice₂ : List Nat) (now : Time)
    (uuid₁ uuid₂ : Nat → String) (route : Route) :
    ∃ fares₁ fares₂ fares₃,
      NewFareCalculator.CalculateFares choice₁ now uuid₁ route = .ok fares₁ ∧
      NewFareCalculator.CalculateFares choice₂ now uuid₂ route = .ok fares₂ ∧
      NewFareCalculator.CalculateFares choice₁ now uuid₂ route = .ok fares₃ ∧
      (fares₁.map RouteFare.content).Perm (fares₂.map RouteFare.content) ∧
      fares₁.map RouteFare.content = fares₃.map RouteFare.content := by
  refine ⟨_, _, _, rfl, rfl, rfl, ?_, ?_⟩
  · rw [loop_map_content, loop_map_content]
    exact ((rangeOrder_perm choice₁ _).trans (rangeOrder_perm choice₂ _).symm).map _
  · rw [loop_map_content, loop_map_content]

/-! ## Claims on the trip service -/

/-- C5, refuted as stated: an accepted driver response on a trip whose status is
`pending` leaves that trip with status `driver_assigned`; a trip that is not
`created` does not keep its status. -/
theorem handleDriverResponse_moves_pending :
    ¬ ∀ (s : TripServiceImpl) (env : Env) (w : World) (tripID driverID : String) (t t' : Trip),
      w.trips.find? (fun doc => doc.ID == tripID) = some t →
      t.Status ≠ TripStatusCreated →
      (s.HandleDriverResponse env w tripID driverID true).2.trips.find?
        (fun doc => doc.ID == tripID) = some t' →
      t'.Status = t.Status := by
  intro h
  have hfind : (sampleWorld [sampleTrip TripStatusPending]).trips.find?
      (fun doc => doc.ID == "t1") = some (sampleTrip TripStatusPending) := by
    simp [sampleWorld, sampleTrip]
  have hafter := find?_updateOne "t1"
    (fun doc => { doc with
      Status := TripStatusDriverAssigned, UpdatedAt := (sampleEnv (fun _ => 5) false).now 0 })
    (fun _ => rfl) _ _ hfind
  rw [← handleDriverResponse_accept_trips NewTripService (sampleEnv (fun _ => 5) false)
    (sampleWorld [sampleTrip TripStatusPending]) "t1" "d1" _ hfind rfl rfl] at hafter
  have hbad := h NewTripService (sampleEnv (fun _ => 5) false)
    (sampleWorld [sampleTrip TripStatusPending]) "t1" "d1" _ _ hfind
    (by simp [sampleTrip, TripStatusPending, TripStatusCreated]) hafter
  simp [sampleTrip, TripStatusPending, TripStatusDriverAssigned] at hbad

/-- C5, amended: for every store state and every existing trip, whatever its
current status, `HandleDriverResponse` with `accepted = true` and a database that
answers leaves the trip with status `driver_assigned` (the current status is not
examined); and `driver_assigned` is the only status the operation writes: after
any call every document is a document from before, or one from before with
status `driver_assigned` and a new `updated_at`. -/
theorem handleDriverResponse_assigns_any_status (s : TripServiceImpl) (env : Env) (w : World)
    (tripID driverID : String) (t : Trip)
    (hfind : w.trips.find? (fun doc => doc.ID == tripID) = some t)
    (h0 : env.storeFault 0 = false) (h1 : env.storeFault 1 = false) :
    (s.HandleDriverResponse env w tripID driverID true).2.trips.find?
        (fun doc => doc.ID == tripID) =
      some { t with Status := TripStatusDriverAssigned, UpdatedAt := env.now 0 } ∧
    ∀ (accepted : Bool),
      ∀ doc' ∈ (s.HandleDriverResponse env w tripID driverID accepted).2.trips,
        doc' ∈ w.trips ∨
          ∃ doc ∈ w.trips,
            doc' = { doc with Status := TripStatusDriverAssigned, UpdatedAt := env.now 0 } := by
  constructor
  · rw [handleDriverResponse_accept_trips s env w tripID driverID t hfind h0 h1]
    exact find?_updateOne tripID
      (fun doc => { doc with Status := TripStatusDriverAssigned, UpdatedAt := env.now 0 })
      (fun _ => rfl) _ _ hfind
  · intro accepted doc' hdoc'
    rcases handleDriverResponse_trips s env w tripID driverID accepted with h | h
    · rw [h] at hdoc'
      exact Or.inl hdoc'
    · rw [h] at hdoc'
      exact mem_updateOne _ _ _ _ hdoc'

/-- C5, amended, on a store that holds one trip with status `in_progress`. -/
theorem handleDriverResponse_assigns_any_status_witness :
    (sampleWorld [sampleTrip TripStatusInProgress]).trips.find? (fun doc => doc.ID == "t1") =
        some (sampleTrip TripStatusInProgress) ∧
      (sampleEnv (fun _ => 9) false).storeFault 0 = false ∧
      (sampleEnv (fun _ => 9) false).storeFault 1 = false ∧
      (NewTripService.HandleDriverResponse (sampleEnv (fun _ => 9) false)
          (sampleWorld [sampleTrip TripStatusInProgress]) "t1" "d1" true).2.trips.find?
          (fun doc => doc.ID == "t1") =
        some { sampleTrip TripStatusInProgress with
          Status := TripStatusDriverAssigned, UpdatedAt := 9 } :=
  have hfind : (sampleWorld [sampleTrip TripStatusInProgress]).trips.find?
      (fun doc => doc.ID == "t1") = some (sampleTrip TripStatusInProgress) := by
    simp [sampleWorld, sampleTrip]
  ⟨hfind, rfl, rfl,
    (handleDriverResponse_assigns_any_status NewTripService (sampleEnv (fun _ => 9) false)
      (sampleWorld [sampleTrip TripStatusInProgress]) "t1" "d1" _ hfind rfl rfl).1⟩

/-- C6: when the preview succeeds and `fareID` is the id of none of the freshly
computed fares, `CreateTrip` returns the fare-not-found error and leaves the
state as it was: the record of calls is unchanged, so `Create` was called zero
times and nothing was published. -/
theorem createTrip_fare_not_found (s : TripServiceImpl) (env : Env) (w : World)
    (userID fareID : String) (pickup destination : Coordinate) (route : Route)
    (fares : List RouteFare)
    (hprev : s.PreviewTrip env userID pickup destination = .ok (route, fares))
    (hid : ∀ f ∈ fares, f.ID ≠ fareID) :
    (s.CreateTrip env w userID fareID pickup destination).1 = .error (.fareNotFound fareID) ∧
      (s.CreateTrip env w userID fareID pickup destination).2 = w ∧
      (s.CreateTrip env w userID fareID pickup destination).2.calls = w.calls ∧
      (s.CreateTrip env w userID fareID pickup destination).2.trips = w.trips ∧
      (s.CreateTrip env w userID fareID pickup destination).2.exchange = w.exchange := by
  have hnone : fares.find? (fun f => f.ID == fareID) = none := by
    rw [List.find?_eq_none]
    intro f hf
    simpa using hid f hf
  simp only [TripServiceImpl.CreateTrip, hprev, hnone, and_self]

/-- C6 on the sample preview, with the fare id `nope`. -/
theorem createTrip_fare_not_found_witness :
    (NewTripService.CreateTrip (sampleEnv (fun i => i) false) (sampleWorld []) "u1" "nope"
        ⟨0, 0⟩ ⟨1, 1⟩).1 = .error (.fareNotFound "nope") ∧
      (NewTripService.CreateTrip (sampleEnv (fun i => i) false) (sampleWorld []) "u1" "nope"
        ⟨0, 0⟩ ⟨1, 1⟩).2 = sampleWorld [] :=
  have h := createTrip_fare_not_found NewTripService (sampleEnv (fun i => i) false)
    (sampleWorld []) "u1" "nope" ⟨0, 0⟩ ⟨1, 1⟩ _ _
    (samplePreview (fun i => i) false "u1" ⟨0, 0⟩ ⟨1, 1⟩) (sampleNoFare _ _ _)
  ⟨h.1, h.2.1⟩

/-- C7: when the preview succeeds and the fare selected by `fareID` has an
`ExpiresAt` strictly before the clock reading of the expiry check, `CreateTrip`
returns the fare-expired error and leaves the state as it was: no trip is
persisted, `Create` is not called and nothing is published. -/
theorem createTrip_fare_expired (s : TripServiceImpl) (env : Env) (w : World)
    (userID fareID : String) (pickup destination : Coordinate) (route : Route)
    (fares : List RouteFare) (fare : RouteFare)
    (hprev : s.PreviewTrip env userID pickup destination = .ok (route, fares))
    (hfind : fares.find? (fun f => f.ID == fareID) = some fare)
    (hexpired : fare.ExpiresAt < env.now 1) :
    fare.ID = fareID ∧
      (s.CreateTrip env w userID fareID pickup destination).1 = .error .fareExpired ∧
      (s.CreateTrip env w userID fareID pickup destination).2 = w ∧
      (s.CreateTrip env w userID fareID pickup destination).2.trips = w.trips ∧
      (s.CreateTrip env w userID fareID pickup destination).2.calls = w.calls ∧
      (s.CreateTrip env w userID fareID pickup destination).2.exchange = w.exchange := by
  have hgt : env.now 1 > fare.ExpiresAt := hexpired
  refine ⟨by simpa using List.find?_some hfind, ?_⟩
  simp only [TripServiceImpl.CreateTrip, hprev, hfind, if_pos hgt, and_self]

/-- C7 on the sample preview: the expiry check reads the clock six minutes after
the fares were computed. -/
theorem createTrip_fare_expired_witness :
    (NewTripService.CreateTrip (sampleEnv (fun i => i * (6 * Minute)) false) (sampleWorld [])
        "u1" "u" ⟨0, 0⟩ ⟨1, 1⟩).1 = .error .fareExpired ∧
      (NewTripService.CreateTrip (sampleEnv (fun i => i * (6 * Minute)) false) (sampleWorld [])
        "u1" "u" ⟨0, 0⟩ ⟨1, 1⟩).2 = sampleWorld [] :=
  have h := createTrip_fare_expired NewTripService (sampleEnv (fun i => i * (6 * Minute)) false)
    (sampleWorld []) "u1" "u" ⟨0, 0⟩ ⟨1, 1⟩ _ _ _
    (samplePreview (fun i => i * (6 * Minute)) false "u1" ⟨0, 0⟩ ⟨1, 1⟩) (sampleFind _ _ _)
    (by simp [FareCalculator.makeFare, sampleEnv, Minute])
  ⟨h.2.1, h.2.2.1⟩

/-- C8: when routing and fare calculation succeed, `fareID` selects a fare of the
freshly computed set that is not expired, and the insertion succeeds (the driver
does not fail and no stored trip has the new id), `CreateTrip` returns a trip with
the given `userID`, status `created`, the computed route and the selected fare.
The calls of the operation are one `Create` followed by one `PublishTripCreated`,
both on that trip: `Create` receives it before the time stamps are set, stores it
with the stamps, and the publisher and the caller receive it stamped. The trip is
appended to the store, and the message carrying it joins the exchange unless the
broker refuses it. -/
theorem createTrip_creates (s : TripServiceImpl) (env : Env) (w : World)
    (userID fareID : String) (pickup destination : Coordinate) (route : Route)
    (fares : List RouteFare) (fare : RouteFare)
    (hprev : s.PreviewTrip env userID pickup destination = .ok (route, fares))
    (hfind : fares.find? (fun f => f.ID == fareID) = some fare)
    (hfresh : ¬ env.now 1 > fare.ExpiresAt)
    (hfault : env.storeFault 0 = false)
    (hnew : ∀ doc ∈ w.trips, doc.ID ≠ env.uuid fares.length) :
    (s.CreateTrip env w userID fareID pickup destination).1 = .ok
        { ID := env.uuid fares.length, UserID := userID, Status := TripStatusCreated,
            Route := some route, SelectedFare := some fare, Driver := none,
            CreatedAt := env.now 2, UpdatedAt := env.now 2 } ∧
      (s.CreateTrip env w userID fareID pickup destination).2.calls = w.calls ++
        [Call.Create
          { ID := env.uuid fares.length, UserID := userID, Status := TripStatusCreated,
            Route := some route, SelectedFare := some fare, Driver := none,
            CreatedAt := 0, UpdatedAt := 0 },
         Call.PublishTripCreated (some
          { ID := env.uuid fares.length, UserID := userID, Status := TripStatusCreated,
            Route := some route, SelectedFare := some fare, Driver := none,
            CreatedAt := env.now 2, UpdatedAt := env.now 2 })] ∧
      (s.CreateTrip env w userID fareID pickup destination).2.trips = w.trips ++
        [{ ID := env.uuid fares.length, UserID := userID, Status := TripStatusCreated,
            Route := some route, SelectedFare := some fare, Driver := none,
            CreatedAt := env.now 2, UpdatedAt := env.now 2 }] ∧
      (s.CreateTrip env w userID fareID pickup destination).2.exchange =
        (if env.publishFault then w.exchange
         else w.exchange ++
          [{ RoutingKey := TripEventCreated
             Data := .trip (some
              { ID := env.uuid fares.length, UserID := userID, Status := TripStatusCreated,
                Route := some route, SelectedFare := some fare, Driver := none,
                CreatedAt := env.now 2, UpdatedAt := env.now 2 }) }]) := by
  rw [createTrip_success s env w userID fareID pickup destination route fares fare hprev hfind
    hfresh hfault hnew]
  exact ⟨rfl, rfl, rfl, rfl⟩

/-- C8 on the sample preview and an empty store: the suv fare `u` is selected and
the trip gets the fifth id of the generator. -/
theorem createTrip_creates_witness :
    (NewTripService.CreateTrip (sampleEnv (fun i => i) false) (sampleWorld []) "u1" "u"
        ⟨0, 0⟩ ⟨1, 1⟩).2.calls =
      [Call.Create
        { ID := "uuuu", UserID := "u1", Status := TripStatusCreated,
          Route := some { Distance := 5000, Duration := 600, Geometry := [{ Coordinates := [] }] },
          SelectedFare := some (FareCalculator.makeFare (5000 / 1000.0) (0 + 5 * Minute)
            { Distance := 5000, Duration := 600, Geometry := [{ Coordinates := [] }] } "u"
            (CarPackageSUV, 3.00)),
          Driver := none, CreatedAt := 0, UpdatedAt := 0 },
       Call.PublishTripCreated (some
        { ID := "uuuu", UserID := "u1", Status := TripStatusCreated,
          Route := some { Distance := 5000, Duration := 600, Geometry := [{ Coordinates := [] }] },
          SelectedFare := some (FareCalculator.makeFare (5000 / 1000.0) (0 + 5 * Minute)
            { Distance := 5000, Duration := 600, Geometry := [{ Coordinates := [] }] } "u"
            (CarPackageSUV, 3.00)),
          Driver := none, CreatedAt := 2, UpdatedAt := 2 })] :=
  (createTrip_creates NewTripService (sampleEnv (fun i => i) false) (sampleWorld []) "u1" "u"
    ⟨0, 0⟩ ⟨1, 1⟩ _ _ _ (samplePreview (fun i => i) false "u1" ⟨0, 0⟩ ⟨1, 1⟩) (sampleFind _ _ _)
    (by simp [FareCalculator.makeFare, sampleEnv, Minute]) rfl
    (by simp [sampleWorld])).2.1

/-- C9: under the conditions of a successful creation, when the broker refuses
the `trip.event.created` message `CreateTrip` still returns the created trip
without error, the same trip it returns when the publication succeeds; the trip
is in the store and no message joins the exchange. -/
theorem createTrip_publish_failure (s : TripServiceImpl) (env : Env) (w : World)
    (userID fareID : String) (pickup destination : Coordinate) (route : Route)
    (fares : List RouteFare) (fare : RouteFare)
    (hprev : s.PreviewTrip env userID pickup destination = .ok (route, fares))
    (hfind : fares.find? (fun f => f.ID == fareID) = some fare)
    (hfresh : ¬ env.now 1 > fare.ExpiresAt)
    (hfault : env.storeFault 0 = false)
    (hnew : ∀ doc ∈ w.trips, doc.ID ≠ env.uuid fares.length)
    (hpub : env.publishFault = true) :
    (s.CreateTrip env w userID fareID pickup destination).1 = .ok
        { ID := env.uuid fares.length, UserID := userID, Status := TripStatusCreated,
            Route := some route, SelectedFare := some fare, Driver := none,
            CreatedAt := env.now 2, UpdatedAt := env.now 2 } ∧
      (s.CreateTrip { env with publishFault := false } w userID fareID pickup destination).1 =
        (s.CreateTrip env w userID fareID pickup destination).1 ∧
      (s.CreateTrip env w userID fareID pickup destination).2.trips = w.trips ++
        [{ ID := env.uuid fares.length, UserID := userID, Status := TripStatusCreated,
            Route := some route, SelectedFare := some fare, Driver := none,
            CreatedAt := env.now 2, UpdatedAt := env.now 2 }] ∧
      (s.CreateTrip { env with publishFault := false } w userID fareID pickup destination).2.trips
        = (s.CreateTrip env w userID fareID pickup destination).2.trips ∧
      (s.CreateTrip env w userID fareID pickup destination).2.exchange = w.exchange ∧
      (s.CreateTrip env w userID fareID pickup destination).2.calls = w.calls ++
        [Call.Create
          { ID := env.uuid fares.length, UserID := userID, Status := TripStatusCreated,
            Route := some route, SelectedFare := some fare, Driver := none,
            CreatedAt := 0, UpdatedAt := 0 },
         Call.PublishTripCreated (some
          { ID := env.uuid fares.length, UserID := userID, Status := TripStatusCreated,
            Route := some route, SelectedFare := some fare, Driver := none,
            CreatedAt := env.now 2, UpdatedAt := env.now 2 })] := by
  have hprev' : s.PreviewTrip { env with publishFault := false } userID pickup destination =
      .ok (route, fares) := hprev
  rw [createTrip_success s env w userID fareID pickup destination route fares fare hprev hfind
    hfresh hfault hnew,
    createTrip_success s { env with publishFault := false } w userID fareID pickup destination
      route fares fare hprev' hfind hfresh hfault hnew]
  simp [hpub]

/-- C9 on the sample preview and an empty store, with a broker that refuses the
message. -/
theorem createTrip_publish_failure_witness :
    (sampleEnv (fun i => i) true).publishFault = true ∧
      (NewTripService.CreateTrip { sampleEnv (fun i => i) true with publishFault := false }
          (sampleWorld []) "u1" "u" ⟨0, 0⟩ ⟨1, 1⟩).1 =
        (NewTripService.CreateTrip (sampleEnv (fun i => i) true) (sampleWorld []) "u1" "u"
          ⟨0, 0⟩ ⟨1, 1⟩).1 ∧
      (NewTripService.CreateTrip (sampleEnv (fun i => i) true) (sampleWorld []) "u1" "u"
          ⟨0, 0⟩ ⟨1, 1⟩).2.exchange = [] :=
  have h := createTrip_publish_failure NewTripService (sampleEnv (fun i => i) true)
    (sampleWorld []) "u1" "u" ⟨0, 0⟩ ⟨1, 1⟩ _ _ _
    (samplePreview (fun i => i) true "u1" ⟨0, 0⟩ ⟨1, 1⟩) (sampleFind _ _ _)
    (by simp [FareCalculator.makeFare, sampleEnv, Minute]) rfl (by simp [sampleWorld]) rfl
  ⟨rfl, h.2.1, h.2.2.2.2.1⟩

/-- C10: for every store that holds a trip with id `tripID` and status `created`,
`HandleDriverResponse` with `accepted = true`, a database that answers and a
broker that accepts returns no error, leaves the stored trip with status
`driver_assigned`, and adds exactly one message to the exchange, with routing
key `trip.event.driver_assigned`, whose data is the trip as `GetByID` reads it
from the store after the update. -/
theorem handleDriverResponse_accept_created (s : TripServiceImpl) (env : Env) (w : World)
    (tripID driverID : String) (t : Trip)
    (hfind : w.trips.find? (fun doc => doc.ID == tripID) = some t)
    (_hstatus : t.Status = TripStatusCreated)
    (h0 : env.storeFault 0 = false) (h1 : env.storeFault 1 = false)
    (h2 : env.storeFault 2 = false) (hpub : env.publishFault = false) :
    (s.HandleDriverResponse env w tripID driverID true).1 = none ∧
      (s.HandleDriverResponse env w tripID driverID true).2.trips.find?
          (fun doc => doc.ID == tripID) =
        some { t with Status := TripStatusDriverAssigned, UpdatedAt := env.now 0 } ∧
      (MongoTripRepository.GetByID false (s.HandleDriverResponse env w tripID driverID true).2
          tripID).1 =
        .ok (some { t with Status := TripStatusDriverAssigned, UpdatedAt := env.now 0 }) ∧
      (s.HandleDriverResponse env w tripID driverID true).2.exchange = w.exchange ++
        [{ RoutingKey := TripEventDriverAssigned
           Data := .trip (some
            { t with Status := TripStatusDriverAssigned, UpdatedAt := env.now 0 }) }] ∧
      (s.HandleDriverResponse env w tripID driverID true).2.calls = w.calls ++
        [Call.GetByID tripID, Call.UpdateStatus tripID TripStatusDriverAssigned,
         Call.GetByID tripID,
         Call.PublishDriverAssigned (some
          { t with Status := TripStatusDriverAssigned, UpdatedAt := env.now 0 })] := by
  have hafter := find?_updateOne tripID
    (fun doc => { doc with Status := TripStatusDriverAssigned, UpdatedAt := env.now 0 })
    (fun _ => rfl) _ _ hfind
  simp only [TripServiceImpl.HandleDriverResponse, MongoTripRepository.GetByID, h0, hfind,
    MongoTripRepository.UpdateStatus, h1, h2, hafter, EventPublisher.PublishDriverAssigned,
    EventPublisher.publishEvent, hpub]
  simp [hafter]

/-- C10 on a store that holds one trip with status `created`. -/
theorem handleDriverResponse_accept_created_witness :
    (sampleTrip TripStatusCreated).Status = TripStatusCreated ∧
      (NewTripService.HandleDriverResponse (sampleEnv (fun _ => 9) false)
        (sampleWorld [sampleTrip TripStatusCreated]) "t1" "d1" true).1 = none ∧
      (NewTripService.HandleDriverResponse (sampleEnv (fun _ => 9) false)
        (sampleWorld [sampleTrip TripStatusCreated]) "t1" "d1" true).2.exchange =
        [{ RoutingKey := "trip.event.driver_assigned"
           Data := .trip (some
            { sampleTrip TripStatusCreated with Status := "driver_assigned", UpdatedAt := 9 }) }] :=
  have hfind : (sampleWorld [sampleTrip TripStatusCreated]).trips.find?
      (fun doc => doc.ID == "t1") = some (sampleTrip TripStatusCreated) := by
    simp [sampleWorld, sampleTrip]
  have h := handleDriverResponse_accept_created NewTripService (sampleEnv (fun _ => 9) false)
    (sampleWorld [sampleTrip TripStatusCreated]) "t1" "d1" _ hfind rfl rfl rfl rfl rfl
  ⟨rfl, h.1, h.2.2.2.1⟩

/-- C11: for every `tripID` of which the store holds no trip, and for both
values of `accepted`, `HandleDriverResponse` (its lookup answered by the
database) returns the trip-not-found error, publishes no event and leaves the
store unchanged: the only call it makes is the lookup. -/
theorem handleDriverResponse_trip_not_found (s : TripServiceImpl) (env : Env) (w : World)
    (tripID driverID : String) (accepted : Bool)
    (habsent : ∀ doc ∈ w.trips, doc.ID ≠ tripID)
    (h0 : env.storeFault 0 = false) :
    (s.HandleDriverResponse env w tripID driverID accepted).1 = some (.tripNotFound tripID) ∧
      (s.HandleDriverResponse env w tripID driverID accepted).2.exchange = w.exchange ∧
      (s.HandleDriverResponse env w tripID driverID accepted).2.trips = w.trips ∧
      (s.HandleDriverResponse env w tripID driverID accepted).2.calls =
        w.calls ++ [Call.GetByID tripID] := by
  have hnone : w.trips.find? (fun doc => doc.ID == tripID) = none := by
    rw [List.find?_eq_none]
    intro doc hdoc
    simpa using habsent doc hdoc
  simp only [TripServiceImpl.HandleDriverResponse, MongoTripRepository.GetByID, h0, hnone]
  simp

/-- C11 on a store that holds the trip `t1` only, asked for the trip `t2`, with
an accepting and with a declining driver. -/
theorem handleDriverResponse_trip_not_found_witness :
    (NewTripService.HandleDriverResponse (sampleEnv (fun _ => 9) false)
        (sampleWorld [sampleTrip TripStatusCreated]) "t2" "d1" true).1 =
        some (.tripNotFound "t2") ∧
      (NewTripService.HandleDriverResponse (sampleEnv (fun _ => 9) false)
        (sampleWorld [sampleTrip TripStatusCreated]) "t2" "d1" false).1 =
        some (.tripNotFound "t2") ∧
      (NewTripService.HandleDriverResponse (sampleEnv (fun _ => 9) false)
        (sampleWorld [sampleTrip TripStatusCreated]) "t2" "d1" true).2.exchange = [] :=
  have habsent : ∀ doc ∈ (sampleWorld [sampleTrip TripStatusCreated]).trips, doc.ID ≠ "t2" := by
    simp [sampleWorld, sampleTrip]
  have ht := handleDriverResponse_trip_not_found NewTripService (sampleEnv (fun _ => 9) false)
    (sampleWorld [sampleTrip TripStatusCreated]) "t2" "d1" true habsent rfl
  have hf := handleDriverResponse_trip_not_found NewTripService (sampleEnv (fun _ => 9) false)
    (sampleWorld [sampleTrip TripStatusCreated]) "t2" "d1" false habsent rfl
  ⟨ht.1, hf.1, ht.2.1⟩

/-- C12: for every existing trip, `HandleDriverResponse` with `accepted = false`
(its lookup answered by the database) returns no error, leaves every document
of the store as it was, and publishes no event: the only call it makes is the
lookup, and the only effect is the log line of the decline. -/
theorem handleDriverResponse_decline (s : TripServiceImpl) (env : Env) (w : World)
    (tripID driverID : String) (t : Trip)
    (hfind : w.trips.find? (fun doc => doc.ID == tripID) = some t)
    (h0 : env.storeFault 0 = false) :
    (s.HandleDriverResponse env w tripID driverID false).1 = none ∧
      (s.HandleDriverResponse env w tripID driverID false).2.trips = w.trips ∧
      (s.HandleDriverResponse env w tripID driverID false).2.trips.find?
        (fun doc => doc.ID == tripID) = some t ∧
      (s.HandleDriverResponse env w tripID driverID false).2.exchange = w.exchange ∧
      (s.HandleDriverResponse env w tripID driverID false).2.calls =
        w.calls ++ [Call.GetByID tripID] ∧
      (s.HandleDriverResponse env w tripID driverID false).2.logs =
        w.logs ++ [LogLine.driverDeclined driverID tripID] := by
  simp only [TripServiceImpl.HandleDriverResponse, MongoTripRepository.GetByID, h0, hfind]
  simp [hfind]

/-- C12 on a store that holds one trip with status `created`. -/
theorem handleDriverResponse_decline_witness :
    (sampleWorld [sampleTrip TripStatusCreated]).trips.find? (fun doc => doc.ID == "t1") =
        some (sampleTrip TripStatusCreated) ∧
      (NewTripService.HandleDriverResponse (sampleEnv (fun _ => 9) false)
        (sampleWorld [sampleTrip TripStatusCreated]) "t1" "d1" false).1 = none ∧
      (NewTripService.HandleDriverResponse (sampleEnv (fun _ => 9) false)
        (sampleWorld [sampleTrip TripStatusCreated]) "t1" "d1" false).2.trips =
        [sampleTrip TripStatusCreated] ∧
      (NewTripService.HandleDriverResponse (sampleEnv (fun _ => 9) false)
        (sampleWorld [sampleTrip TripStatusCreated]) "t1" "d1" false).2.exchange = [] :=
  have hfind : (sampleWorld [sampleTrip TripStatusCreated]).trips.find?
      (fun doc => doc.ID == "t1") = some (sampleTrip TripStatusCreated) := by
    simp [sampleWorld, sampleTrip]
  have h := handleDriverResponse_decline NewTripService (sampleEnv (fun _ => 9) false)
    (sampleWorld [sampleTrip TripStatusCreated]) "t1" "d1" _ hfind rfl
  ⟨hfind, h.1, h.2.1, h.2.2.2.1⟩

/-- C13: a refused publication aborts the driver-assignment path only. For every
existing trip, when the broker refuses the message `HandleDriverResponse` with
`accepted = true` returns an error, and with a database that answers that error
is the publication error; whereas `CreateTrip` with a broker that refuses returns
what it returns with a broker that accepts, so the refusal never turns its
result into an error. -/
theorem publish_failure_aborts_assignment_only (s : TripServiceImpl) (env : Env) (w w' : World)
    (tripID driverID : String) (t : Trip) (userID fareID : String)
    (pickup destination : Coordinate)
    (hfind : w.trips.find? (fun doc => doc.ID == tripID) = some t)
    (hpub : env.publishFault = true) :
    (s.HandleDriverResponse env w tripID driverID true).1 ≠ none ∧
      (s.HandleDriverResponse { env with storeFault := fun _ => false } w tripID driverID true).1 =
        some (.failedToPublishDriverAssigned .failedToPublishEvent) ∧
      (s.CreateTrip env w' userID fareID pickup destination).1 =
        (s.CreateTrip { env with publishFault := false } w' userID fareID pickup destination).1 := by
  have hprev : s.PreviewTrip { env with publishFault := false } userID pickup destination =
      s.PreviewTrip env userID pickup destination := rfl
  refine ⟨?_, ?_, ?_⟩
  · simp only [TripServiceImpl.HandleDriverResponse, MongoTripRepository.GetByID, hfind,
      MongoTripRepository.UpdateStatus, EventPublisher.PublishDriverAssigned,
      EventPublisher.publishEvent, hpub]
    cases env.storeFault 0 <;> cases env.storeFault 1 <;> cases env.storeFault 2 <;> simp
  · simp only [TripServiceImpl.HandleDriverResponse, MongoTripRepository.GetByID, hfind,
      MongoTripRepository.UpdateStatus, EventPublisher.PublishDriverAssigned,
      EventPublisher.publishEvent, hpub]
    simp
  · simp only [TripServiceImpl.CreateTrip, hprev, MongoTripRepository.Create,
      EventPublisher.PublishTripCreated, EventPublisher.publishEvent, hpub]
    cases s.PreviewTrip env userID pickup destination with
    | error err => rfl
    | ok p =>
      obtain ⟨route, fares⟩ := p
      simp only []
      cases fares.find? (fun fare => fare.ID == fareID) with
      | none => rfl
      | some fare =>
        simp only []
        split_ifs <;> simp

/-- C13 on a store that holds one trip with status `created` and on the sample
preview, with a broker that refuses every message: the driver response fails,
the creation returns the trip. -/
theorem publish_failure_aborts_assignment_only_witness :
    (sampleEnv (fun i => i) true).publishFault = true ∧
      (NewTripService.HandleDriverResponse (sampleEnv (fun i => i) true)
        (sampleWorld [sampleTrip TripStatusCreated]) "t1" "d1" true).1 ≠ none ∧
      (NewTripService.CreateTrip (sampleEnv (fun i => i) true) (sampleWorld []) "u1" "u"
        ⟨0, 0⟩ ⟨1, 1⟩).1 =
        (NewTripService.CreateTrip { sampleEnv (fun i => i) true with publishFault := false }
          (sampleWorld []) "u1" "u" ⟨0, 0⟩ ⟨1, 1⟩).1 :=
  have hfind : (sampleWorld [sampleTrip TripStatusCreated]).trips.find?
      (fun doc => doc.ID == "t1") = some (sampleTrip TripStatusCreated) := by
    simp [sampleWorld, sampleTrip]
  have h := publish_failure_aborts_assignment_only NewTripService (sampleEnv (fun i => i) true)
    (sampleWorld [sampleTrip TripStatusCreated]) (sampleWorld []) "t1" "d1" _ "u1" "u"
    ⟨0, 0⟩ ⟨1, 1⟩ hfind rfl
  ⟨rfl, h.1, h.2.2⟩

/-! ## Claims on the routing client -/

/-- C14: for every answer of the provider with status 200 and a decoded body of
code `Ok` whose first route has a geometry of entries `[lon, lat, ...]`,
`GetRoute` returns the distance and the duration of that first route and a
single geometry whose coordinates are, one per entry and in the same order,
`{Latitude = lat, Longitude = lon}`; and when the code is not `Ok` or the body
has no route, `GetRoute` returns the no-route-found error with that code. -/
theorem getRoute_translates (provider : Coordinate → Coordinate → ProviderAnswer)
    (pickup destination : Coordinate) (body : String) (osrmResp : OSRMResponse)
    (hanswer : provider pickup destination = .answered 200 body (some osrmResp)) :
    (∀ (route : OSRMRoute) (others : List OSRMRoute) (entries : List (ℚ × ℚ × List ℚ)),
      osrmResp.Code = "Ok" →
      osrmResp.Routes = route :: others →
      route.Geometry.Coordinates = entries.map (fun e => e.1 :: e.2.1 :: e.2.2) →
      OSRMClient.GetRoute provider pickup destination =
        .ok { Distance := route.Distance
              Duration := route.Duration
              Geometry :=
                [{ Coordinates := entries.map fun e => { Latitude := e.2.1, Longitude := e.1 } }] }) ∧
    (osrmResp.Code ≠ "Ok" ∨ osrmResp.Routes = [] →
      OSRMClient.GetRoute provider pickup destination = .error (.noRouteFound osrmResp.Code)) := by
  constructor
  · intro route others entries hcode hroutes hgeom
    simp only [OSRMClient.GetRoute, hanswer, hcode, hroutes, hgeom, convertCoordinates_entries]
    simp
  · intro hbad
    simp only [OSRMClient.GetRoute, hanswer]
    rcases hbad with hcode | hroutes
    · simp [hcode]
    · simp [hroutes]

/-- C14 on the sample answer, whose first route has the entries
`[-122.4194, 37.7749]` and `[-122.4094, 37.7849, 12]`, and on an answer of code
`NoRoute` without routes. -/
theorem getRoute_translates_witness :
    OSRMClient.GetRoute (fun _ _ => .answered 200 "" (some sampleResponse)) ⟨0, 0⟩ ⟨1, 1⟩ =
        .ok { Distance := 5000
              Duration := 600
              Geometry :=
                [{ Coordinates :=
                    [{ Latitude := 37.7749, Longitude := -122.4194 },
                     { Latitude := 37.7849, Longitude := -122.4094 }] }] } ∧
      OSRMClient.GetRoute (fun _ _ => .answered 200 "" (some { Code := "NoRoute", Routes := [] }))
        ⟨0, 0⟩ ⟨1, 1⟩ = .error (.noRouteFound "NoRoute") :=
  ⟨(getRoute_translates (fun _ _ => .answered 200 "" (some sampleResponse)) ⟨0, 0⟩ ⟨1, 1⟩ ""
      sampleResponse rfl).1 _ _ [(-122.4194, 37.7749, []), (-122.4094, 37.7849, [12])] rfl rfl rfl,
    (getRoute_translates (fun _ _ => .answered 200 "" (some { Code := "NoRoute", Routes := [] }))
      ⟨0, 0⟩ ⟨1, 1⟩ "" { Code := "NoRoute", Routes := [] } rfl).2 (Or.inr rfl)⟩

end RideSharing
